import Mathlib

/-!
# Verification of `djangocms_url_manager/forms.py`

A shallow embedding of the form validation and save logic of
`djangocms-url-manager` (file `djangocms_url_manager/forms.py`): the
`UrlForm`, `UrlOverrideForm` and `HtmlLinkForm` classes.  Django machinery
that the source calls (`BaseForm.add_error`, queryset `filter` / `exclude` /
`get`, `ModelForm` instance construction) is embedded with its documented
semantics; the model layer (`models.py`, which is not part of the sources
under verification) is modelled from the specification where needed.
-/

namespace UrlManager

/-- Modelled from the spec: the keys of `BASIC_TYPE_CHOICES` from
`models.py` (not among the source files): the five literal "basic" value
kinds a Url can hold, in the order the model declares them. -/
def basicTypeKeys : List String :=
  ["manual_url", "relative_path", "anchor", "mailto", "phone"]

/-- A content object of one of the externally registered "supported models"
(the possible targets of the generic foreign key).  Primary keys are kept
as strings, matching the form's `content_object` CharField submission;
`site` models a direct `site` attribute on the object, while `sites` models
the site membership that a manager `on_site` scope would consult (the two
are deliberately independent, as they are for an arbitrary external model). -/
structure ContentObjRec where
  pk : String
  site : Nat
  sites : List Nat
deriving Repr, DecidableEq

/-- A registered supported model class: its content-type id, whether its
default manager has an `on_site` capability, whether the model class has a
`site` attribute, and its stored objects. -/
structure ContentModelClass where
  ctId : Nat
  has_on_site : Bool
  has_site : Bool
  objs : List ContentObjRec
deriving Repr, DecidableEq

/-- A persisted `Url` row, as seen by the queries in `UrlForm.clean`
(`content_type`, `object_id`, `url_grouper`). -/
structure UrlRecord where
  pk : Nat
  site : Nat
  content_type : Option Nat
  object_id : Option String
  url_grouper : Option Nat
deriving Repr, DecidableEq

/-- The database state the three forms read and write: `Url` rows,
`UrlGrouper` primary keys, the pk the next `UrlGrouper.objects.create()`
will receive, and the registered content-type classes. -/
structure Db where
  urls : List UrlRecord
  groupers : List Nat
  nextGrouperPk : Nat
  contentTypes : List ContentModelClass
deriving Repr, DecidableEq

/-- Form errors as an ordered list of (field name, message) pairs:
the embedding of Django's `form.errors`. -/
abbrev Errors := List (String × String)

/-- A Python exception that escapes the form machinery (a fatal process
error, as opposed to a `ValidationError` turned into form errors). -/
inductive PyError
  | valueError (msg : String)
  | keyError (key : String)
deriving Repr, DecidableEq

/-- Embedding of Django's `BaseForm.add_error(field, message)`: appends the
error when `field` already has errors, is the non-field key `__all__`, or
names one of the form's fields; otherwise Django raises
`ValueError("'...' has no field named '...'")`. -/
def add_error (fields : List String) (errors : Errors) (field msg : String) :
    Except PyError Errors :=
  if errors.any (fun e => e.1 = field) || field = "__all__" || fields.contains field then
    .ok (errors ++ [(field, msg)])
  else
    .error (.valueError ("The form has no field named '" ++ field ++ "'."))

/-- The decimal value of a non-empty all-digit character list. -/
def decDigits? (ds : List Char) : Option Nat :=
  if ds ≠ [] ∧ ds.all Char.isDigit then
    some (ds.foldl (fun acc c => 10 * acc + (c.toNat - 48)) 0)
  else
    none

/-- Embedding of Python's `int(s)` on a string: optional surrounding
whitespace, an optional sign, then decimal digits; anything else raises
`ValueError`, modelled as `none`. -/
def pyInt (s : String) : Option Int :=
  let cs := ((s.data.dropWhile Char.isWhitespace).reverse.dropWhile
    Char.isWhitespace).reverse
  match cs with
  | '-' :: ds => (decDigits? ds).map (fun n => -(n : Int))
  | '+' :: ds => (decDigits? ds).map (fun n => (n : Int))
  | ds => (decDigits? ds).map (fun n => (n : Int))

/-! ## HtmlLinkForm -/

/-- The fields of `HtmlLinkForm` (its `Meta.fields` plus the declared
fields, which carry the same names).  Note there is no field `url`. -/
def htmlLinkFormFields : List String :=
  ["site", "url_grouper", "label", "template", "target", "attributes"]

/-- The value held under `url_grouper` in `HtmlLinkForm`'s cleaned data:
the raw submitted string, or (after `clean` resolves it) the `UrlGrouper`
with the given pk. -/
inductive GrouperValue
  | raw (s : String)
  | obj (pk : Nat)
deriving Repr, DecidableEq

/-- `HtmlLinkForm`'s cleaned data, restricted to the keys `clean` touches.
`url_grouper = none` models the key being absent (the field failed its own
validation). -/
structure HtmlLinkCleaned where
  site : Option Nat
  url_grouper : Option GrouperValue
deriving Repr, DecidableEq

/-- The string Python sees for a cleaned-data value (a raw CharField value,
or `str` of a resolved object's pk; the latter never occurs on entry). -/
def GrouperValue.str : GrouperValue → String
  | .raw s => s
  | .obj pk => toString pk

/-- Embedding of `HtmlLinkForm.clean` (forms.py lines 275-284):
`int(data["url_grouper"])`, then `UrlGrouper.objects.get(pk=...)`;
`ValueError` from `int` and `ObjectDoesNotExist` from `get` are caught and
routed to `self.add_error("url", ...)`; success replaces the cleaned-data
entry with the resolved grouper.  A missing `url_grouper` key raises
`KeyError` (uncaught in the source); `add_error` itself raises when the
named field does not exist on the form. -/
def cleanHtmlLinkForm (db : Db) (errors0 : Errors) (data : HtmlLinkCleaned) :
    Except PyError (HtmlLinkCleaned × Errors) := do
  match data.url_grouper with
  | none => throw (.keyError "url_grouper")
  | some gv =>
    match pyInt gv.str with
    | none =>
      let errs ← add_error htmlLinkFormFields errors0 "url" "Invalid value"
      return (data, errs)
    | some n =>
      if db.groupers.any (fun pk => (pk : Int) = n) then
        return ({ data with url_grouper := some (.obj n.toNat) }, errors0)
      else
        let errs ← add_error htmlLinkFormFields errors0 "url" "Url does not exist"
        return (data, errs)

/-- A sample database: one grouper with pk 1, nothing else. -/
def dbOneGrouper : Db :=
  { urls := [], groupers := [1], nextGrouperPk := 2, contentTypes := [] }

/-! ## UrlForm -/

/-- The fields of `UrlForm` (`Meta.fields`; the declared fields `url_type`,
`site`, `content_object` carry the same names). -/
def urlFormFields : List String :=
  ["internal_name", "url_type", "site", "content_object",
   "manual_url", "relative_path", "anchor", "mailto", "phone"]

/-- The fields of `UrlOverrideForm`: `("url",) + UrlForm.Meta.fields`. -/
def urlOverrideFormFields : List String :=
  "url" :: urlFormFields

/-- The value held under `content_object` in `UrlForm`'s cleaned data: the
raw submitted pk string, or (after `clean` resolves it) the content object
itself together with its content-type id. -/
inductive ContentValue
  | raw (s : String)
  | obj (ctId : Nat) (o : ContentObjRec)
deriving Repr, DecidableEq

/-- The pk string Django would use when a cleaned-data value is passed to a
pk lookup (the raw CharField string on entry to `clean`). -/
def contentObjectStr : Option ContentValue → String
  | some (.raw s) => s
  | some (.obj _ o) => o.pk
  | none => ""

/-- `UrlForm`'s cleaned data (`UrlOverrideForm` adds `url`).  A `none`
models the key being absent from `cleaned_data` — `data.get(k)` is `None` —
after the field's own validation failed; for the five basic CharFields an
empty submission cleans to `some ""`. -/
structure CleanedData where
  internal_name : Option String
  url_type : Option String
  site : Option Nat
  content_object : Option ContentValue
  manual_url : Option String
  relative_path : Option String
  anchor : Option String
  mailto : Option String
  phone : Option String
  url : Option UrlRecord
  url_grouper : Option Nat
deriving Repr, DecidableEq

/-- `data[name]` for a basic-kind field name (`""` for a name outside the
five, which the source never does). -/
def getBasic (d : CleanedData) (name : String) : Option String :=
  if name = "manual_url" then d.manual_url
  else if name = "relative_path" then d.relative_path
  else if name = "anchor" then d.anchor
  else if name = "mailto" then d.mailto
  else if name = "phone" then d.phone
  else none

/-- `data[name] = v` for a basic-kind field name. -/
def setBasic (d : CleanedData) (name : String) (v : String) : CleanedData :=
  if name = "manual_url" then { d with manual_url := some v }
  else if name = "relative_path" then { d with relative_path := some v }
  else if name = "anchor" then { d with anchor := some v }
  else if name = "mailto" then { d with mailto := some v }
  else if name = "phone" then { d with phone := some v }
  else d

/-- Python truthiness of a cleaned basic-field value: `None` and `""` are
falsy. -/
def blankStr : Option String → Bool
  | none => true
  | some s => s = ""

/-- The loop of `UrlForm.clean` (lines 134-136): blank every basic-kind
field whose name differs from the selected `url_type`. -/
def blankOtherBasics (url_type : Option String) (d : CleanedData) : CleanedData :=
  basicTypeKeys.foldl
    (fun d type_name => if url_type ≠ some type_name then setBasic d type_name "" else d) d

/-- `url_type in dict(BASIC_TYPE_CHOICES).keys()` (`None` is never a key). -/
def isBasicType : Option String → Bool
  | some t => basicTypeKeys.contains t
  | none => false

/-- `ContentType.objects.get_for_id(url_type)` followed by
`content_type.model_class()`: resolve the cleaned `url_type` (a numeric
string for a non-basic choice) to the registered model class; `none` is the
`ObjectDoesNotExist` outcome (also for `url_type = None`, when the choice
failed validation). -/
def lookupContentType (db : Db) (url_type : Option String) : Option ContentModelClass :=
  url_type.bind fun s =>
    (pyInt s).bind fun n => db.contentTypes.find? (fun m => (m.ctId : Int) = n)

/-- The manager scope `model.objects.on_site(site)`: the objects whose site
membership contains the selected site. -/
def onSiteScope (objs : List ContentObjRec) (site : Option Nat) : List ContentObjRec :=
  objs.filter fun o =>
    match site with
    | some s => o.sites.contains s
    | none => false

/-- The queryset built by lines 147-151 of `UrlForm.clean`:
`model.objects.all()`, narrowed by `on_site(site)` when the manager has
`on_site`, else by `filter(site=site)` when the model has a `site`
attribute, else left unscoped. -/
def contentObjectQs (m : ContentModelClass) (site : Option Nat) : List ContentObjRec :=
  if m.has_on_site then onSiteScope m.objs site
  else if m.has_site then m.objs.filter (fun o => some o.site = site)
  else m.objs

/-- The queryset `Url._base_manager.filter(content_type=...,
object_id=...).exclude(url_grouper=url_grouper)` (lines 157-161).  Under
SQL three-valued logic `exclude(url_grouper=g)` also drops rows whose
`url_grouper` is NULL, and `exclude(url_grouper=None)` drops exactly the
NULL rows, so a row survives iff it carries some grouper different from the
submitted one. -/
def duplicateUrlExists (db : Db) (ctId : Nat) (objectId : String)
    (url_grouper : Option Nat) : Bool :=
  db.urls.any fun u =>
    u.content_type = some ctId && u.object_id = some objectId &&
      u.url_grouper.isSome && u.url_grouper ≠ url_grouper

/-- `str(site)` as interpolated into the lookup-failure message (`None`
when the site is absent; the site's string form otherwise, modelled by its
pk). -/
def siteStr : Option Nat → String
  | some s => toString s
  | none => "None"

/-- The message of lines 170-177: it interpolates the raw submitted
`url_type` (`self.data["url_type"]`) and the selected site. -/
def objectDoesNotExistMsg (rawUrlType : String) (site : Option Nat) : String :=
  "Object does not exist in a given content type id: " ++ rawUrlType ++
    " and site: " ++ siteStr site

/-- Embedding of `UrlForm.clean` (lines 128-181).  `errors0` is
`self.errors` on entry (the field-level errors), `rawUrlType` is
`self.data["url_type"]`.  All `add_error` calls in this method name fields
that exist on the form, so no exception escapes and the result is a plain
pair of the (mutated) cleaned data and the errors. -/
def cleanUrlForm (db : Db) (errors0 : Errors) (rawUrlType : String)
    (data : CleanedData) : CleanedData × Errors :=
  let url_type := data.url_type
  let content_object := data.content_object
  let is_basic_type := isBasicType url_type
  let data := blankOtherBasics url_type data
  if is_basic_type then
    match url_type with
    | some t =>
      if ¬ errors0.any (fun e => e.1 = t) ∧ blankStr (getBasic data t) then
        (data, errors0 ++ [(t, "Field is required")])
      else
        (data, errors0)
    | none => (data, errors0)
  else if contentObjectStr content_object ≠ "" then
    let site := data.site
    match lookupContentType db url_type with
    | some m =>
      match (contentObjectQs m site).find? (fun o => o.pk = contentObjectStr content_object) with
      | some o =>
        let errors1 :=
          if data.url = none then
            if duplicateUrlExists db m.ctId (contentObjectStr content_object) data.url_grouper then
              errors0 ++ [("content_object", "Url with this object already exists")]
            else errors0
          else errors0
        ({ data with content_object := some (.obj m.ctId o) }, errors1)
      | none =>
        (data, errors0 ++ [("content_object", objectDoesNotExistMsg rawUrlType site)])
    | none =>
      (data, errors0 ++ [("content_object", objectDoesNotExistMsg rawUrlType site)])
  else
    (data, errors0 ++ [("content_object", "Field is required")])

/-- `UrlForm.clean_anchor` (lines 183-188): reject an anchor beginning
with `#` (the error is attached to `anchor`; the value is returned either
way). -/
def clean_anchor (errors0 : Errors) (anchor : String) : String × Errors :=
  if anchor ≠ "" ∧ anchor.front = '#' then
    (anchor, errors0 ++ [("anchor", "Do not include a preceding \x22#\x22 symbol.")])
  else
    (anchor, errors0)

/-- `UrlOverrideForm.clean` (lines 225-238): base cleaning, then, when the
original `url` is present and its site equals the selected site, a
`ValidationError({"site": ...})` — which Django's `_clean_form` catches and
records as an error on `site`. -/
def cleanUrlOverrideForm (db : Db) (errors0 : Errors) (rawUrlType : String)
    (data : CleanedData) : CleanedData × Errors :=
  let (data, errors) := cleanUrlForm db errors0 rawUrlType data
  match data.url with
  | some u =>
    if some u.site = data.site then
      (data, errors ++ [("site", "Overridden site must be different from the original.")])
    else
      (data, errors)
  | none => (data, errors)

/-! ## UrlForm.save -/

/-- The in-memory model instance `self.instance` of a `UrlForm` (a `Url`)
or `UrlOverrideForm` (a `UrlOverride`): the model columns the form writes.
`pk = none` while unsaved. -/
structure UrlInstance where
  pk : Option Nat
  internal_name : String
  site : Option Nat
  manual_url : String
  relative_path : String
  anchor : String
  mailto : String
  phone : String
  content_type : Option Nat
  object_id : Option String
  url_grouper : Option Nat
deriving Repr, DecidableEq

/-- The instance's value of a basic-kind column. -/
def getBasicInst (u : UrlInstance) (name : String) : String :=
  if name = "manual_url" then u.manual_url
  else if name = "relative_path" then u.relative_path
  else if name = "anchor" then u.anchor
  else if name = "mailto" then u.mailto
  else if name = "phone" then u.phone
  else ""

/-- Django's `construct_instance` as run by `super().save(commit=False)`:
each model column listed in `Meta.fields` whose key is present in
`cleaned_data` is written to the instance (`url_type` is form-only and
`content_object` is a generic foreign key, neither a concrete column, so
neither is written here). -/
def construct_instance (inst : UrlInstance) (data : CleanedData) : UrlInstance :=
  { inst with
    internal_name := (data.internal_name).getD inst.internal_name
    site := match data.site with | some s => some s | none => inst.site
    manual_url := (data.manual_url).getD inst.manual_url
    relative_path := (data.relative_path).getD inst.relative_path
    anchor := (data.anchor).getD inst.anchor
    mailto := (data.mailto).getD inst.mailto
    phone := (data.phone).getD inst.phone }

/-- Assignment to the generic foreign key `self.instance.content_object`:
`None` clears both underlying columns; a resolved content object sets the
content-type id and the object pk.  (On a valid form the cleaned value in
the non-basic branch is always a resolved object, never a raw string.) -/
def assignContentObject (inst : UrlInstance) (v : Option ContentValue) : UrlInstance :=
  match v with
  | some (.obj ctId o) => { inst with content_type := some ctId, object_id := some o.pk }
  | _ => { inst with content_type := none, object_id := none }

/-- `UrlForm.create_grouper` (lines 190-200): when the instance is a `Url`
(overrides are not) and has no grouper, attach a fresh
`UrlGrouper.objects.create()` — which hits the database immediately. -/
def create_grouper (db : Db) (isUrlInstance : Bool) (url : UrlInstance) :
    UrlInstance × Db :=
  if isUrlInstance ∧ url.url_grouper = none then
    ({ url with url_grouper := some db.nextGrouperPk },
     { db with groupers := db.groupers ++ [db.nextGrouperPk],
               nextGrouperPk := db.nextGrouperPk + 1 })
  else
    (url, db)

/-- `url.save()`: persist the instance as a `Url` row (insert under a
fresh pk when unsaved — which also sets the instance's pk — else update the
row in place). -/
def persistUrl (db : Db) (url : UrlInstance) : UrlInstance × Db :=
  let row := fun pk =>
    { pk := pk, site := url.site.getD 0, content_type := url.content_type,
      object_id := url.object_id, url_grouper := url.url_grouper : UrlRecord }
  match url.pk with
  | some pk =>
    (url, { db with urls := db.urls.map (fun u => if u.pk = pk then row pk else u) })
  | none =>
    let pk := (db.urls.map UrlRecord.pk).foldl max 0 + 1
    ({ url with pk := some pk }, { db with urls := db.urls ++ [row pk] })

/-- Embedding of `UrlForm.save` (lines 202-217) on already-cleaned data:
build the unsaved instance from the cleaned data, null the generic
reference for a basic `url_type` and set it to the cleaned `content_object`
otherwise, ensure a grouper exists, and persist only when `commit` is true.
`isUrlInstance` is the `isinstance(url, Url)` test inside `create_grouper`
(true for `UrlForm`, false for `UrlOverrideForm`, whose instance is a
`UrlOverride`). -/
def urlFormSave (db : Db) (isUrlInstance : Bool) (inst : UrlInstance)
    (data : CleanedData) (commit : Bool) : UrlInstance × Db :=
  let url_type := data.url_type
  let url := construct_instance inst data
  let is_basic_type := isBasicType url_type
  let url :=
    if is_basic_type then assignContentObject url none
    else assignContentObject url data.content_object
  let (url, db) := create_grouper db isUrlInstance url
  if commit then persistUrl db url else (url, db)

/-- The full `UrlForm` pipeline on a submission that passed field-level
cleaning: run `clean`, and when the form is valid (no errors) run `save`;
an invalid form never reaches `save` (Django raises on `form.save()` with
errors). -/
def urlFormCleanAndSave (db : Db) (errors0 : Errors) (rawUrlType : String)
    (inst : UrlInstance) (data : CleanedData) (commit : Bool) :
    Option (UrlInstance × Db) :=
  if (cleanUrlForm db errors0 rawUrlType data).2 = [] then
    some (urlFormSave db true inst (cleanUrlForm db errors0 rawUrlType data).1 commit)
  else
    none

/-! ## Sample data for concrete evaluations -/

/-- An empty database. -/
def dbEmpty : Db :=
  { urls := [], groupers := [], nextGrouperPk := 1, contentTypes := [] }

/-- Cleaned data with every key absent. -/
def cd0 : CleanedData :=
  { internal_name := none, url_type := none, site := none, content_object := none,
    manual_url := none, relative_path := none, anchor := none, mailto := none,
    phone := none, url := none, url_grouper := none }

/-- A fresh unsaved `Url` instance. -/
def inst0 : UrlInstance :=
  { pk := none, internal_name := "", site := none, manual_url := "",
    relative_path := "", anchor := "", mailto := "", phone := "",
    content_type := none, object_id := none, url_grouper := none }

/-- A cleaned submission selecting the basic kind `mailto` with an empty
value. -/
def cdMailtoEmpty : CleanedData :=
  { cd0 with url_type := some "mailto", site := some 1, mailto := some "" }

/-- A cleaned submission selecting the basic kind `manual_url` with a
non-empty value: a valid basic submission. -/
def cdManual : CleanedData :=
  { cd0 with url_type := some "manual_url", site := some 1,
             manual_url := some "http://example.com" }

/-- A registered model with both an `on_site` manager scope and a `site`
attribute; its one object is on site 1 by `on_site` membership but carries
site 2 as its direct attribute (so the two scopes disagree). -/
def mBoth : ContentModelClass :=
  { ctId := 13, has_on_site := true, has_site := true,
    objs := [{ pk := "7", site := 2, sites := [1] }] }

/-- A registered model with no site scoping at all and a single object. -/
def mPlain : ContentModelClass :=
  { ctId := 13, has_on_site := false, has_site := false,
    objs := [{ pk := "7", site := 1, sites := [] }] }

/-- A database in which content-type 13 is `mPlain` and a `Url` row with
grouper 5 already references object "7" of that type. -/
def dbDup : Db :=
  { urls := [{ pk := 1, site := 1, content_type := some 13,
               object_id := some "7", url_grouper := some 5 }],
    groupers := [5], nextGrouperPk := 6, contentTypes := [mPlain] }

/-- A database in which content-type 13 is `mBoth` and nothing else exists. -/
def dbBoth : Db :=
  { urls := [], groupers := [], nextGrouperPk := 1, contentTypes := [mBoth] }

/-- A cleaned submission selecting content-type 13 and object "7" on
site 1. -/
def cdObj : CleanedData :=
  { cd0 with url_type := some "13", site := some 1,
             content_object := some (.raw "7") }

/-- A cleaned submission selecting content-type 13 and an object pk "99"
that no stored object carries. -/
def cdObjMissing : CleanedData :=
  { cd0 with url_type := some "13", site := some 1,
             content_object := some (.raw "99") }

/-- An original `Url` row on site 2, as resolved by `UrlOverrideForm`'s
`url` field. -/
def origUrl : UrlRecord :=
  { pk := 9, site := 2, content_type := none, object_id := none, url_grouper := some 3 }

/-- The `cdManual` submission after `clean` (every other basic field
blanked to `""`). -/
def cdManualCleaned : CleanedData :=
  { cd0 with url_type := some "manual_url", site := some 1,
             manual_url := some "http://example.com", relative_path := some "",
             anchor := some "", mailto := some "", phone := some "" }

/-- The instance produced by saving `cdManual` over `dbEmpty`. -/
def urlSavedManual : UrlInstance :=
  { pk := some 1, internal_name := "", site := some 1,
    manual_url := "http://example.com", relative_path := "", anchor := "",
    mailto := "", phone := "", content_type := none, object_id := none,
    url_grouper := some 1 }

/-- The database state after saving `cdManual` over `dbEmpty`. -/
def dbSavedManual : Db :=
  { urls := [{ pk := 1, site := 1, content_type := none,
               object_id := none, url_grouper := some 1 }],
    groupers := [1], nextGrouperPk := 2, contentTypes := [] }

/-- An override submission whose selected site equals the original's. -/
def cdOverrideSame : CleanedData :=
  { cd0 with url_type := some "manual_url", site := some 2,
             manual_url := some "http://example.com", url := some origUrl }

/-! ## Helper lemmas -/

theorem setBasic_site (d : CleanedData) (n v : String) : (setBasic d n v).site = d.site := by
  unfold setBasic; split_ifs <;> rfl

theorem setBasic_url_type (d : CleanedData) (n v : String) :
    (setBasic d n v).url_type = d.url_type := by
  unfold setBasic; split_ifs <;> rfl

theorem setBasic_content_object (d : CleanedData) (n v : String) :
    (setBasic d n v).content_object = d.content_object := by
  unfold setBasic; split_ifs <;> rfl

theorem setBasic_url (d : CleanedData) (n v : String) : (setBasic d n v).url = d.url := by
  unfold setBasic; split_ifs <;> rfl

theorem setBasic_url_grouper (d : CleanedData) (n v : String) :
    (setBasic d n v).url_grouper = d.url_grouper := by
  unfold setBasic; split_ifs <;> rfl

theorem blankFoldl_proj {α : Type} (f : CleanedData → α)
    (hf : ∀ d n v, f (setBasic d n v) = f d) (u : Option String) :
    ∀ (l : List String) (d : CleanedData),
      f (l.foldl (fun d ty => if u ≠ some ty then setBasic d ty "" else d) d) = f d := by
  intro l
  induction l with
  | nil => intro d; rfl
  | cons a l ih =>
    intro d
    rw [List.foldl_cons, ih]
    split
    · exact hf d a ""
    · rfl

theorem blankOtherBasics_site (u : Option String) (d : CleanedData) :
    (blankOtherBasics u d).site = d.site :=
  blankFoldl_proj CleanedData.site setBasic_site u basicTypeKeys d

theorem blankOtherBasics_url_type (u : Option String) (d : CleanedData) :
    (blankOtherBasics u d).url_type = d.url_type :=
  blankFoldl_proj CleanedData.url_type setBasic_url_type u basicTypeKeys d

theorem blankOtherBasics_content_object (u : Option String) (d : CleanedData) :
    (blankOtherBasics u d).content_object = d.content_object :=
  blankFoldl_proj CleanedData.content_object setBasic_content_object u basicTypeKeys d

theorem blankOtherBasics_url (u : Option String) (d : CleanedData) :
    (blankOtherBasics u d).url = d.url :=
  blankFoldl_proj CleanedData.url setBasic_url u basicTypeKeys d

theorem blankOtherBasics_url_grouper (u : Option String) (d : CleanedData) :
    (blankOtherBasics u d).url_grouper = d.url_grouper :=
  blankFoldl_proj CleanedData.url_grouper setBasic_url_grouper u basicTypeKeys d

theorem getBasic_blankOtherBasics_self (t : String) (d : CleanedData) :
    getBasic (blankOtherBasics (some t) d) t = getBasic d t := by
  by_cases h1 : t = "manual_url" <;> by_cases h2 : t = "relative_path" <;>
    by_cases h3 : t = "anchor" <;> by_cases h4 : t = "mailto" <;>
    by_cases h5 : t = "phone" <;>
    simp_all [blankOtherBasics, basicTypeKeys, List.foldl, getBasic, setBasic]

theorem getBasic_blankOtherBasics_ne (u : Option String) (t : String) (d : CleanedData)
    (ht : t ∈ basicTypeKeys) (hne : u ≠ some t) :
    getBasic (blankOtherBasics u d) t = some "" := by
  simp only [basicTypeKeys, List.mem_cons, List.not_mem_nil, or_false] at ht
  rcases ht with rfl | rfl | rfl | rfl | rfl <;>
  · simp only [blankOtherBasics, basicTypeKeys, List.foldl]
    split_ifs <;> simp_all [getBasic, setBasic]

theorem cleanUrlForm_basic_fst (db : Db) (e : Errors) (r : String) (d : CleanedData)
    (hbasic : isBasicType d.url_type = true) :
    (cleanUrlForm db e r d).1 = blankOtherBasics d.url_type d := by
  cases hu : d.url_type with
  | none => rw [hu] at hbasic; simp [isBasicType] at hbasic
  | some t =>
    rw [hu] at hbasic
    simp only [cleanUrlForm, hu, hbasic, if_true]
    split <;> rfl

theorem cleanUrlForm_success_nonbasic (db : Db) (e : Errors) (r : String) (d : CleanedData)
    (hbasic : isBasicType d.url_type = false)
    (hsucc : (cleanUrlForm db e r d).2 = []) :
    ∃ m o, lookupContentType db d.url_type = some m ∧
      (contentObjectQs m d.site).find?
        (fun x => x.pk = contentObjectStr d.content_object) = some o ∧
      (cleanUrlForm db e r d).1 =
        { blankOtherBasics d.url_type d with content_object := some (.obj m.ctId o) } := by
  by_cases hco : contentObjectStr d.content_object = ""
  · exfalso
    simp [cleanUrlForm, hbasic, hco] at hsucc
  · cases hl : lookupContentType db d.url_type with
    | none =>
      exfalso
      simp [cleanUrlForm, hbasic, hco, hl, blankOtherBasics_site] at hsucc
    | some m =>
      cases hf : (contentObjectQs m d.site).find?
          (fun x => x.pk = contentObjectStr d.content_object) with
      | none =>
        exfalso
        simp [cleanUrlForm, hbasic, hco, hl, hf, blankOtherBasics_site] at hsucc
      | some o =>
        refine ⟨m, o, rfl, hf, ?_⟩
        simp [cleanUrlForm, hbasic, hco, hl, hf, blankOtherBasics_site]

theorem cleanUrlForm_basic_success_nonblank (db : Db) (e : Errors) (r : String)
    (d : CleanedData) (t : String) (ht : d.url_type = some t)
    (hbt : isBasicType d.url_type = true)
    (he : (cleanUrlForm db e r d).2 = []) :
    blankStr (getBasic d t) = false := by
  by_cases hb : blankStr (getBasic d t) = true
  case neg => exact Bool.eq_false_iff.mpr hb
  case pos =>
  exfalso
  rw [ht] at hbt
  simp only [cleanUrlForm, ht, hbt, if_true] at he
  rw [getBasic_blankOtherBasics_self] at he
  by_cases ha : e.any (fun x => x.1 = t) = true
  · simp only [ha, not_true, false_and, if_false] at he
    subst he
    simp at ha
  · simp [ha, hb] at he

theorem cleanUrlForm_fst_shape (db : Db) (e : Errors) (r : String) (d : CleanedData) :
    (cleanUrlForm db e r d).1 = blankOtherBasics d.url_type d ∨
    ∃ ct o, (cleanUrlForm db e r d).1 =
      { blankOtherBasics d.url_type d with
        content_object := some (ContentValue.obj ct o) } := by
  by_cases hb : isBasicType d.url_type = true
  · exact Or.inl (cleanUrlForm_basic_fst db e r d hb)
  · rw [Bool.not_eq_true] at hb
    by_cases hco : contentObjectStr d.content_object = ""
    · left
      simp [cleanUrlForm, hb, hco]
    · cases hl : lookupContentType db d.url_type with
      | none =>
        left
        simp [cleanUrlForm, hb, hco, hl]
      | some m =>
        cases hf : (contentObjectQs m (blankOtherBasics d.url_type d).site).find?
            (fun x => x.pk = contentObjectStr d.content_object) with
        | none =>
          left
          simp [cleanUrlForm, hb, hco, hl, hf]
        | some o =>
          right
          exact ⟨m.ctId, o, by simp [cleanUrlForm, hb, hco, hl, hf]⟩

theorem cleanUrlForm_fst_url (db : Db) (e : Errors) (r : String) (d : CleanedData) :
    ((cleanUrlForm db e r d).1).url = d.url := by
  rcases cleanUrlForm_fst_shape db e r d with h | ⟨ct, o, h⟩ <;>
    rw [h] <;> simp [blankOtherBasics_url]

theorem cleanUrlForm_fst_site (db : Db) (e : Errors) (r : String) (d : CleanedData) :
    ((cleanUrlForm db e r d).1).site = d.site := by
  rcases cleanUrlForm_fst_shape db e r d with h | ⟨ct, o, h⟩ <;>
    rw [h] <;> simp [blankOtherBasics_site]

theorem cleanUrlForm_fst_url_type (db : Db) (e : Errors) (r : String) (d : CleanedData) :
    ((cleanUrlForm db e r d).1).url_type = d.url_type := by
  rcases cleanUrlForm_fst_shape db e r d with h | ⟨ct, o, h⟩ <;>
    rw [h] <;> simp [blankOtherBasics_url_type]

theorem getBasicInst_construct (i : UrlInstance) (d : CleanedData) (n : String)
    (hn : n ∈ basicTypeKeys) :
    getBasicInst (construct_instance i d) n = (getBasic d n).getD (getBasicInst i n) := by
  simp only [basicTypeKeys, List.mem_cons, List.not_mem_nil, or_false] at hn
  rcases hn with rfl | rfl | rfl | rfl | rfl <;>
    simp [getBasicInst, getBasic, construct_instance]

theorem getBasicInst_assignContentObject (u : UrlInstance) (v : Option ContentValue)
    (n : String) : getBasicInst (assignContentObject u v) n = getBasicInst u n := by
  rcases v with _ | cv
  · rfl
  · cases cv <;> rfl

theorem getBasicInst_create_grouper (db : Db) (b : Bool) (u : UrlInstance) (n : String) :
    getBasicInst ((create_grouper db b u).1) n = getBasicInst u n := by
  unfold create_grouper
  split
  · unfold getBasicInst; split_ifs <;> rfl
  · rfl

theorem create_grouper_content_type (db : Db) (b : Bool) (u : UrlInstance) :
    ((create_grouper db b u).1).content_type = u.content_type ∧
    ((create_grouper db b u).1).object_id = u.object_id ∧
    ((create_grouper db b u).1).pk = u.pk := by
  unfold create_grouper
  split <;> simp

theorem persistUrl_groupers (db : Db) (u : UrlInstance) :
    ((persistUrl db u).2).groupers = db.groupers := by
  unfold persistUrl
  cases u.pk <;> simp

theorem persistUrl_contentTypes (db : Db) (u : UrlInstance) :
    ((persistUrl db u).2).contentTypes = db.contentTypes := by
  unfold persistUrl
  cases u.pk <;> simp

theorem persistUrl_fst_url_grouper (db : Db) (u : UrlInstance) :
    ((persistUrl db u).1).url_grouper = u.url_grouper := by
  unfold persistUrl
  cases u.pk <;> simp

theorem persistUrl_fst_content_type (db : Db) (u : UrlInstance) :
    ((persistUrl db u).1).content_type = u.content_type := by
  unfold persistUrl
  cases u.pk <;> simp

theorem persistUrl_fst_object_id (db : Db) (u : UrlInstance) :
    ((persistUrl db u).1).object_id = u.object_id := by
  unfold persistUrl
  cases u.pk <;> simp

theorem getBasicInst_persist (db : Db) (u : UrlInstance) (n : String) :
    getBasicInst ((persistUrl db u).1) n = getBasicInst u n := by
  unfold persistUrl
  cases u.pk
  · unfold getBasicInst; split_ifs <;> rfl
  · rfl

theorem construct_instance_url_grouper (i : UrlInstance) (d : CleanedData) :
    (construct_instance i d).url_grouper = i.url_grouper := rfl

theorem construct_instance_pk (i : UrlInstance) (d : CleanedData) :
    (construct_instance i d).pk = i.pk := rfl

theorem assignContentObject_url_grouper (u : UrlInstance) (v : Option ContentValue) :
    (assignContentObject u v).url_grouper = u.url_grouper := by
  rcases v with _ | cv
  · rfl
  · cases cv <;> rfl

theorem assignContentObject_pk (u : UrlInstance) (v : Option ContentValue) :
    (assignContentObject u v).pk = u.pk := by
  rcases v with _ | cv
  · rfl
  · cases cv <;> rfl

theorem create_grouper_pk (db : Db) (b : Bool) (u : UrlInstance) :
    ((create_grouper db b u).1).pk = u.pk := by
  unfold create_grouper
  split <;> rfl

theorem getBasic_co_update (d : CleanedData) (v : Option ContentValue) (n : String) :
    getBasic { d with content_object := v } n = getBasic d n := by
  unfold getBasic
  split_ifs <;> rfl

theorem urlFormSave_fst_url_grouper (db : Db) (b : Bool) (inst : UrlInstance)
    (d : CleanedData) (c : Bool) :
    ((urlFormSave db b inst d c).1).url_grouper =
      (if b ∧ inst.url_grouper = none then some db.nextGrouperPk
       else inst.url_grouper) ∧
    ((urlFormSave db b inst d c).2).groupers =
      (if b ∧ inst.url_grouper = none then db.groupers ++ [db.nextGrouperPk]
       else db.groupers) := by
  have hug : ∀ v, (assignContentObject (construct_instance inst d) v).url_grouper =
      inst.url_grouper := fun v => by
    rw [assignContentObject_url_grouper, construct_instance_url_grouper]
  unfold urlFormSave create_grouper
  cases c <;> by_cases hb2 : isBasicType d.url_type = true <;>
    by_cases hg : b ∧ inst.url_grouper = none <;>
      simp [hb2, hg, hug, persistUrl_groupers, persistUrl_fst_url_grouper]

theorem urlFormSave_basic_clears (db : Db) (b : Bool) (inst : UrlInstance)
    (d : CleanedData) (c : Bool) (hbt : isBasicType d.url_type = true) :
    ((urlFormSave db b inst d c).1).content_type = none ∧
    ((urlFormSave db b inst d c).1).object_id = none := by
  unfold urlFormSave create_grouper
  cases c <;>
    simp [hbt, assignContentObject, persistUrl_fst_content_type,
      persistUrl_fst_object_id] <;>
    split_ifs <;> simp [persistUrl_fst_content_type, persistUrl_fst_object_id]

theorem urlFormSave_obj_sets (db : Db) (b : Bool) (inst : UrlInstance)
    (d : CleanedData) (c : Bool) (ct : Nat) (o : ContentObjRec)
    (hbt : isBasicType d.url_type = false)
    (hco : d.content_object = some (ContentValue.obj ct o)) :
    ((urlFormSave db b inst d c).1).content_type = some ct ∧
    ((urlFormSave db b inst d c).1).object_id = some o.pk := by
  unfold urlFormSave create_grouper
  cases c <;>
    simp [hbt, hco, assignContentObject, persistUrl_fst_content_type,
      persistUrl_fst_object_id] <;>
    split_ifs <;> simp [persistUrl_fst_content_type, persistUrl_fst_object_id]

theorem urlFormSave_getBasic (db : Db) (b : Bool) (inst : UrlInstance)
    (d : CleanedData) (c : Bool) (n : String) (hn : n ∈ basicTypeKeys) :
    getBasicInst ((urlFormSave db b inst d c).1) n =
      (getBasic d n).getD (getBasicInst inst n) := by
  have h1 : ∀ v, getBasicInst (assignContentObject (construct_instance inst d) v) n =
      (getBasic d n).getD (getBasicInst inst n) := fun v => by
    rw [getBasicInst_assignContentObject, getBasicInst_construct inst d n hn]
  unfold urlFormSave
  cases c <;> simp [getBasicInst_persist, getBasicInst_create_grouper] <;>
    split <;> exact h1 _

/-! ## Claim theorems -/

/-- C2: the claim that every validation failure on the three forms is
surfaced as a field- or form-level error and no input causes a fatal
process error is violated by `HtmlLinkForm`: a non-numeric `url_grouper`
submission reaches `self.add_error("url", _("Invalid value"))`, and since
`HtmlLinkForm` has no field named `url`, Django's `add_error` raises
`ValueError` — an uncaught exception escaping `clean`. -/
theorem html_link_form_nonnumeric_grouper_fatal :
    cleanHtmlLinkForm dbOneGrouper []
      { site := none, url_grouper := some (.raw "not-a-number") } =
      .error (.valueError "The form has no field named 'url'.") := by
  rfl

/-- C3: the error-reporting halves of the claim fail on the code: a
non-existent grouper id routes to `self.add_error("url", _("Url does not
exist"))`, which raises `ValueError` because the form has no `url` field
(the field is named `url_grouper`), so no validation error is ever
reported; only the success half holds — a valid id is resolved and replaces
the cleaned-data entry. -/
theorem html_link_form_missing_grouper_fatal_valid_id_resolves :
    (cleanHtmlLinkForm dbOneGrouper []
        { site := none, url_grouper := some (.raw "999") } =
      .error (.valueError "The form has no field named 'url'.")) ∧
    (cleanHtmlLinkForm dbOneGrouper []
        { site := none, url_grouper := some (.raw "1") } =
      .ok ({ site := none, url_grouper := some (.obj 1) }, [])) :=
  ⟨rfl, rfl⟩

/-- C6: for every `UrlForm` submission selecting a basic `url_type` whose
corresponding value field is empty after cleaning and not already carrying
an error, `clean` adds the error "Field is required" on that field. -/
theorem urlForm_basic_empty_field_required (db : Db) (e : Errors) (r : String)
    (d : CleanedData) (t : String)
    (ht : d.url_type = some t) (htb : t ∈ basicTypeKeys)
    (hnoerr : e.any (fun x => x.1 = t) = false)
    (hblank : blankStr (getBasic d t) = true) :
    (cleanUrlForm db e r d).2 = e ++ [(t, "Field is required")] := by
  have hbasic : isBasicType (some t) = true := by
    simp only [isBasicType]
    exact List.elem_eq_true_of_mem htb
  simp [cleanUrlForm, ht, hbasic, getBasic_blankOtherBasics_self, hblank, hnoerr]

/-- Witness for C6: an empty `mailto` submission yields the error. -/
theorem urlForm_basic_empty_field_required_witness :
    cdMailtoEmpty.url_type = some "mailto" ∧
    (cleanUrlForm dbEmpty [] "mailto" cdMailtoEmpty).2 =
      [] ++ [("mailto", "Field is required")] :=
  ⟨rfl, urlForm_basic_empty_field_required dbEmpty [] "mailto" cdMailtoEmpty "mailto"
    rfl (by decide) rfl rfl⟩

/-- C5: for every `UrlOverrideForm` submission with both the original `url`
and `site` present, an equal site yields the "Overridden site must be
different from the original." error on `site`, and differing sites add no
error in this check. -/
theorem urlOverrideForm_site_must_differ (db : Db) (e : Errors) (r : String)
    (d : CleanedData) (u : UrlRecord) (s : Nat)
    (hurl : d.url = some u) (hsite : d.site = some s) :
    (u.site = s →
      ("site", "Overridden site must be different from the original.") ∈
        (cleanUrlOverrideForm db e r d).2) ∧
    (u.site ≠ s →
      (cleanUrlOverrideForm db e r d).2 = (cleanUrlForm db e r d).2) := by
  have hu' := cleanUrlForm_fst_url db e r d
  have hs' := cleanUrlForm_fst_site db e r d
  rw [hurl] at hu'
  rw [hsite] at hs'
  constructor
  · intro heq
    simp [cleanUrlOverrideForm, hu', hs', heq]
  · intro hne
    simp [cleanUrlOverrideForm, hu', hs', hne]

/-- Witness for C5: an override on the original's own site (site 2) yields
the error. -/
theorem urlOverrideForm_site_must_differ_witness :
    origUrl.site = 2 ∧
    ("site", "Overridden site must be different from the original.") ∈
      (cleanUrlOverrideForm dbEmpty [] "manual_url" cdOverrideSame).2 :=
  ⟨rfl, (urlOverrideForm_site_must_differ dbEmpty [] "manual_url" cdOverrideSame
    origUrl 2 rfl rfl).1 rfl⟩

/-- C4: for every non-override `UrlForm` submission (no `url` in the
cleaned data) whose content-object lookup succeeds, an existing `Url` row
referencing the same (content_type, object_id) pair under a different
grouper yields the error "Url with this object already exists" on
`content_object`; with `url` present (an override) the uniqueness check is
skipped and this branch of `clean` adds no error at all. -/
theorem urlForm_uniqueness_check (db : Db) (e : Errors) (r : String) (d : CleanedData)
    (m : ContentModelClass) (o : ContentObjRec)
    (hb : isBasicType d.url_type = false)
    (hco : contentObjectStr d.content_object ≠ "")
    (hl : lookupContentType db d.url_type = some m)
    (hf : (contentObjectQs m d.site).find?
      (fun x => x.pk = contentObjectStr d.content_object) = some o) :
    (d.url = none →
      (∃ u ∈ db.urls, u.content_type = some m.ctId ∧
          u.object_id = some (contentObjectStr d.content_object) ∧
          ∃ g, u.url_grouper = some g ∧ some g ≠ d.url_grouper) →
      ("content_object", "Url with this object already exists") ∈
        (cleanUrlForm db e r d).2) ∧
    (∀ u0, d.url = some u0 → (cleanUrlForm db e r d).2 = e) := by
  constructor
  · intro hurl hex
    have hdup : duplicateUrlExists db m.ctId (contentObjectStr d.content_object)
        d.url_grouper = true := by
      obtain ⟨u, hu, hct, hoid, g, hg, hgne⟩ := hex
      simp only [duplicateUrlExists, List.any_eq_true]
      exact ⟨u, hu, by simp [hct, hoid, hg, hgne]⟩
    simp [cleanUrlForm, hb, hco, hl, hf, hurl, hdup, blankOtherBasics_site,
      blankOtherBasics_url, blankOtherBasics_url_grouper]
  · intro u0 hurl
    simp [cleanUrlForm, hb, hco, hl, hf, hurl, blankOtherBasics_site,
      blankOtherBasics_url, blankOtherBasics_url_grouper]

/-- Witness for C4: object "7" of content-type 13 is already referenced by
a `Url` row under grouper 5, and the submission carries no grouper. -/
theorem urlForm_uniqueness_check_witness :
    ("content_object", "Url with this object already exists") ∈
      (cleanUrlForm dbDup [] "13" cdObj).2 :=
  (urlForm_uniqueness_check dbDup [] "13" cdObj mPlain
      { pk := "7", site := 1, sites := [] }
      (by decide) (by decide) (by decide) (by decide)).1 rfl (by decide)

/-- C7: inside `UrlForm.clean`'s content-object branch, the resolved value
is the result of a pk lookup over `contentObjectQs`, and that queryset is
scoped by exactly the precedence the spec states: a manager `on_site`
capability wins, else a direct `site` attribute filter, else the lookup is
unscoped. -/
theorem urlForm_lookup_scoping (db : Db) (e : Errors) (r : String) (d : CleanedData)
    (m : ContentModelClass)
    (hb : isBasicType d.url_type = false)
    (hco : contentObjectStr d.content_object ≠ "")
    (hl : lookupContentType db d.url_type = some m) :
    (((cleanUrlForm db e r d).1).content_object =
      match (contentObjectQs m d.site).find?
          (fun x => x.pk = contentObjectStr d.content_object) with
        | some o => some (ContentValue.obj m.ctId o)
        | none => d.content_object) ∧
    (m.has_on_site = true → contentObjectQs m d.site = onSiteScope m.objs d.site) ∧
    (m.has_on_site = false → m.has_site = true →
      contentObjectQs m d.site = m.objs.filter (fun x => some x.site = d.site)) ∧
    (m.has_on_site = false → m.has_site = false → contentObjectQs m d.site = m.objs) := by
  refine ⟨?_, ?_, ?_, ?_⟩
  · cases hf : (contentObjectQs m d.site).find?
        (fun x => x.pk = contentObjectStr d.content_object) with
    | none =>
      simp [cleanUrlForm, hb, hco, hl, hf, blankOtherBasics_site,
        blankOtherBasics_content_object]
    | some o =>
      simp [cleanUrlForm, hb, hco, hl, hf, blankOtherBasics_site]
  · intro h1
    simp [contentObjectQs, h1]
  · intro h1 h2
    simp [contentObjectQs, h1, h2]
  · intro h1 h2
    simp [contentObjectQs, h1, h2]

/-- Witness for C7: content-type 13's model has both an `on_site` manager
scope and a `site` attribute; `on_site` membership (site 1) wins over the
direct attribute (site 2), and the object is resolved. -/
theorem urlForm_lookup_scoping_witness :
    mBoth.has_on_site = true ∧ mBoth.has_site = true ∧
    ((cleanUrlForm dbBoth [] "13" cdObj).1).content_object =
      some (ContentValue.obj 13 { pk := "7", site := 2, sites := [1] }) := by
  refine ⟨rfl, rfl, ?_⟩
  have h := (urlForm_lookup_scoping dbBoth [] "13" cdObj mBoth
    (by decide) (by decide) (by decide)).1
  rw [h]
  decide

/-- C8: for every `UrlForm` submission with a non-basic `url_type` and a
present `content_object` whose scoped lookup finds no matching object,
`clean` adds an error on `content_object`, and the message names the
attempted content-type id (the raw submitted `url_type`) and the selected
site. -/
theorem urlForm_lookup_failure_error (db : Db) (e : Errors) (r : String) (d : CleanedData)
    (hb : isBasicType d.url_type = false)
    (hco : contentObjectStr d.content_object ≠ "")
    (hfail : ∀ m, lookupContentType db d.url_type = some m →
      (contentObjectQs m d.site).find?
        (fun x => x.pk = contentObjectStr d.content_object) = none) :
    ("content_object", objectDoesNotExistMsg r d.site) ∈ (cleanUrlForm db e r d).2 ∧
    objectDoesNotExistMsg r d.site =
      "Object does not exist in a given content type id: " ++ r ++
        " and site: " ++ siteStr d.site := by
  constructor
  · cases hl : lookupContentType db d.url_type with
    | none =>
      simp [cleanUrlForm, hb, hco, hl, blankOtherBasics_site]
    | some m =>
      have hf := hfail m hl
      simp [cleanUrlForm, hb, hco, hl, hf, blankOtherBasics_site]
  · rfl

/-- Witness for C8: no object of content-type 13 has pk "99", so the
submission errors with the message naming content-type id 13 and site 1. -/
theorem urlForm_lookup_failure_error_witness :
    ("content_object", objectDoesNotExistMsg "13" (some 1)) ∈
      (cleanUrlForm dbDup [] "13" cdObjMissing).2 := by
  have h := (urlForm_lookup_failure_error dbDup [] "13" cdObjMissing
    (by decide) (by decide) ?_).1
  · exact h
  · intro m hm
    have hmp : lookupContentType dbDup cdObjMissing.url_type = some mPlain := by decide
    rw [hmp] at hm
    injection hm with hm'
    subst hm'
    decide

/-- C9: a valid `UrlForm` submission whose instance lacks a `url_grouper`
is saved with a newly created, attached grouper (the grouper's pk is fresh
and recorded in the database), so the returned instance always carries a
grouper; an instance that already has one keeps it unchanged. -/
theorem urlForm_save_ensures_grouper (db : Db) (e : Errors) (r : String)
    (inst : UrlInstance) (d : CleanedData) (c : Bool) (url : UrlInstance) (db' : Db)
    (hfresh : db.nextGrouperPk ∉ db.groupers)
    (hrun : urlFormCleanAndSave db e r inst d c = some (url, db')) :
    (inst.url_grouper = none →
      url.url_grouper = some db.nextGrouperPk ∧
      db.nextGrouperPk ∈ db'.groupers ∧ db.nextGrouperPk ∉ db.groupers) ∧
    url.url_grouper.isSome = true ∧
    (∀ g, inst.url_grouper = some g → url.url_grouper = some g) := by
  unfold urlFormCleanAndSave at hrun
  by_cases he : (cleanUrlForm db e r d).2 = []
  · rw [if_pos he] at hrun
    replace hrun := Option.some.inj hrun
    obtain ⟨hg1, hg2⟩ :=
      urlFormSave_fst_url_grouper db true inst ((cleanUrlForm db e r d).1) c
    rw [hrun] at hg1 hg2
    simp only [true_and] at hg1 hg2
    refine ⟨?_, ?_, ?_⟩
    · intro h0
      rw [if_pos h0] at hg1
      rw [if_pos h0] at hg2
      exact ⟨hg1, by rw [hg2]; exact List.mem_append_right _ (List.mem_singleton.mpr rfl),
        hfresh⟩
    · rcases hg0 : inst.url_grouper with _ | g
      · rw [if_pos hg0] at hg1; rw [hg1]; rfl
      · rw [if_neg (by simp [hg0])] at hg1; rw [hg1, hg0]; rfl
    · intro g hgg
      rw [if_neg (by simp [hgg])] at hg1
      rw [hg1, hgg]
  · rw [if_neg he] at hrun
    exact absurd hrun (by simp)

/-- Witness for C9: saving the valid `manual_url` submission over the
empty database attaches the fresh grouper 1. -/
theorem urlForm_save_ensures_grouper_witness :
    inst0.url_grouper = none ∧
    urlSavedManual.url_grouper = some dbEmpty.nextGrouperPk ∧
    dbEmpty.nextGrouperPk ∈ dbSavedManual.groupers := by
  have h := urlForm_save_ensures_grouper dbEmpty [] "manual_url" inst0 cdManual true
    urlSavedManual dbSavedManual (by decide) (by decide)
  exact ⟨rfl, (h.1 rfl).1, (h.1 rfl).2.1⟩

/-- C10: on a valid submission whose instance lacks a grouper, calling
`save` with `commit=False` still persists a newly created `UrlGrouper`
(grouper creation is not deferred), while the `Url` row store is untouched
(the instance is returned unsaved, its pk unassigned) and no other
database state changes. -/
theorem urlForm_save_no_commit_frame (db : Db) (e : Errors) (r : String)
    (inst : UrlInstance) (d data' : CleanedData)
    (hclean : cleanUrlForm db e r d = (data', []))
    (hg : inst.url_grouper = none) :
    ((urlFormSave db true inst data' false).2).urls = db.urls ∧
    ((urlFormSave db true inst data' false).2).contentTypes = db.contentTypes ∧
    ((urlFormSave db true inst data' false).2).groupers =
      db.groupers ++ [db.nextGrouperPk] ∧
    ((urlFormSave db true inst data' false).1).url_grouper = some db.nextGrouperPk ∧
    ((urlFormSave db true inst data' false).1).pk = inst.pk := by
  have hug : ∀ v, (assignContentObject (construct_instance inst d) v).url_grouper =
      none := fun v => by
    rw [assignContentObject_url_grouper, construct_instance_url_grouper, hg]
  have hpk : ∀ v, (assignContentObject (construct_instance inst d) v).pk = inst.pk :=
    fun v => by
    rw [assignContentObject_pk, construct_instance_pk]
  have hug' : ∀ v, (assignContentObject (construct_instance inst data') v).url_grouper =
      none := fun v => by
    rw [assignContentObject_url_grouper, construct_instance_url_grouper, hg]
  have hpk' : ∀ v, (assignContentObject (construct_instance inst data') v).pk = inst.pk :=
    fun v => by
    rw [assignContentObject_pk, construct_instance_pk]
  unfold urlFormSave create_grouper
  by_cases hbt : isBasicType data'.url_type = true <;> simp [hbt, hug', hpk']

/-- Witness for C10: the `commit=False` save of the valid `manual_url`
submission creates grouper 1 while leaving the `Url` rows untouched. -/
theorem urlForm_save_no_commit_frame_witness :
    ((urlFormSave dbEmpty true inst0 cdManualCleaned false).2).urls = dbEmpty.urls ∧
    ((urlFormSave dbEmpty true inst0 cdManualCleaned false).2).groupers =
      dbEmpty.groupers ++ [dbEmpty.nextGrouperPk] ∧
    ((urlFormSave dbEmpty true inst0 cdManualCleaned false).1).pk = inst0.pk := by
  have h := urlForm_save_no_commit_frame dbEmpty [] "manual_url" inst0 cdManual
    cdManualCleaned (by decide) rfl
  exact ⟨h.1, h.2.2.1, h.2.2.2.2⟩

/-- C1: after a successful clean-and-save, exactly one value source is
populated: a basic `url_type` leaves every other basic field blank and the
generic reference cleared; a non-basic `url_type` (necessarily with a
resolved object, else cleaning would have failed) leaves every basic field
blank and sets the generic reference to the object `clean` resolved. -/
theorem urlForm_single_value_source (db : Db) (e : Errors) (r : String)
    (inst : UrlInstance) (d : CleanedData) (c : Bool) (url : UrlInstance) (db' : Db)
    (hrun : urlFormCleanAndSave db e r inst d c = some (url, db')) :
    (∀ t, d.url_type = some t → t ∈ basicTypeKeys →
      url.content_type = none ∧ url.object_id = none ∧
      getBasicInst url t ≠ "" ∧
      ∀ t', t' ∈ basicTypeKeys → t' ≠ t → getBasicInst url t' = "") ∧
    (∀ t, d.url_type = some t → t ∉ basicTypeKeys →
      (∀ t', t' ∈ basicTypeKeys → getBasicInst url t' = "") ∧
      ∃ m o, lookupContentType db d.url_type = some m ∧
        (contentObjectQs m d.site).find?
          (fun x => x.pk = contentObjectStr d.content_object) = some o ∧
        ((cleanUrlForm db e r d).1).content_object =
          some (ContentValue.obj m.ctId o) ∧
        url.content_type = some m.ctId ∧ url.object_id = some o.pk) := by
  unfold urlFormCleanAndSave at hrun
  by_cases he : (cleanUrlForm db e r d).2 = []
  case neg =>
    rw [if_neg he] at hrun
    exact absurd hrun (by simp)
  case pos =>
  rw [if_pos he] at hrun
  replace hrun := Option.some.inj hrun
  constructor
  · intro t ht htb
    have hbt : isBasicType d.url_type = true := by
      rw [ht]
      simp only [isBasicType]
      exact List.elem_eq_true_of_mem htb
    have hdata' : (cleanUrlForm db e r d).1 = blankOtherBasics d.url_type d :=
      cleanUrlForm_basic_fst db e r d hbt
    have hbt' : isBasicType ((cleanUrlForm db e r d).1).url_type = true := by
      rw [hdata', blankOtherBasics_url_type]
      exact hbt
    obtain ⟨hct, hoid⟩ :=
      urlFormSave_basic_clears db true inst ((cleanUrlForm db e r d).1) c hbt'
    rw [hrun] at hct hoid
    refine ⟨hct, hoid, ?_, ?_⟩
    · have hnb := cleanUrlForm_basic_success_nonblank db e r d t ht hbt he
      have hgb := urlFormSave_getBasic db true inst ((cleanUrlForm db e r d).1) c t htb
      rw [hrun] at hgb
      have hself : getBasic ((cleanUrlForm db e r d).1) t = getBasic d t := by
        rw [hdata', ht]
        exact getBasic_blankOtherBasics_self t d
      rw [hself] at hgb
      rcases hgd : getBasic d t with _ | v
      · rw [hgd] at hnb
        simp [blankStr] at hnb
      · rw [hgd] at hnb hgb
        simp only [Option.getD_some] at hgb
        rw [hgb]
        simp only [blankStr, decide_eq_false_iff_not] at hnb
        exact hnb
    · intro t' ht'b ht'ne
      have hgb := urlFormSave_getBasic db true inst ((cleanUrlForm db e r d).1) c t' ht'b
      rw [hrun] at hgb
      have hblank : getBasic ((cleanUrlForm db e r d).1) t' = some "" := by
        rw [hdata']
        exact getBasic_blankOtherBasics_ne d.url_type t' d ht'b
          (by rw [ht]; intro hcon; exact ht'ne (Option.some.inj hcon).symm)
      rw [hblank] at hgb
      simpa using hgb
  · intro t ht htnb
    have hbt : isBasicType d.url_type = false := by
      rw [ht]
      simp only [isBasicType]
      exact Bool.eq_false_iff.mpr (fun hcon => htnb (List.mem_of_elem_eq_true hcon))
    obtain ⟨m, o, hl, hf, hshape⟩ := cleanUrlForm_success_nonbasic db e r d hbt he
    have hco' : ((cleanUrlForm db e r d).1).content_object =
        some (ContentValue.obj m.ctId o) := by
      rw [hshape]
    have hbt' : isBasicType ((cleanUrlForm db e r d).1).url_type = false := by
      rw [hshape]
      show isBasicType (blankOtherBasics d.url_type d).url_type = false
      rw [blankOtherBasics_url_type]
      exact hbt
    obtain ⟨hct, hoid⟩ :=
      urlFormSave_obj_sets db true inst ((cleanUrlForm db e r d).1) c m.ctId o hbt' hco'
    rw [hrun] at hct hoid
    constructor
    · intro t' ht'b
      have hgb := urlFormSave_getBasic db true inst ((cleanUrlForm db e r d).1) c t' ht'b
      rw [hrun] at hgb
      have hblank : getBasic ((cleanUrlForm db e r d).1) t' = some "" := by
        rw [hshape, getBasic_co_update]
        refine getBasic_blankOtherBasics_ne d.url_type t' d ht'b ?_
        rw [ht]
        intro hcon
        exact htnb (by rw [Option.some.inj hcon]; exact ht'b)
      rw [hblank] at hgb
      simpa using hgb
    · exact ⟨m, o, hl, hf, hco', hct, hoid⟩

/-- Witness for C1: the saved `manual_url` submission has the generic
reference cleared and the other basic fields blank. -/
theorem urlForm_single_value_source_witness :
    urlSavedManual.content_type = none ∧ urlSavedManual.object_id = none ∧
    getBasicInst urlSavedManual "manual_url" ≠ "" ∧
    getBasicInst urlSavedManual "phone" = "" := by
  have h := (urlForm_single_value_source dbEmpty [] "manual_url" inst0 cdManual true
    urlSavedManual dbSavedManual (by decide)).1 "manual_url" rfl (by decide)
  exact ⟨h.1, h.2.1, h.2.2.1, h.2.2.2 "phone" (by decide) (by decide)⟩

end UrlManager
